import Mathlib

/-!
# Verification of the PyRate raster-preparation subsystem (prepifg)

Shallow embedding of the raster-preparation code of the PyRate repository:

* `pyrate/prepifg.py` — the legacy preparation path: `resample`, `check_looks`,
  `min_bounds`, `max_bounds`, `get_same_bounds`, `check_crop_coords`, `get_extents`;
* `pyrate/prepifg/utilities.py` — the package path: `prepare_ifg`, `_warp`,
  `_dummy_warp`, `coherence_masking`, the metadata `DATA_TYPE` update chain;
* `pyrate/prepifg/__init__.py` — `_prepifg_multiprocessing`'s coherence checks,
  `_setup_source`, `gdal_average`.

Machine floats of the source are embedded as rationals (`ℚ`); a floating NaN
cell is embedded as `none : Option ℚ`.  Fallible code returns `Except String`.
-/

namespace PyRate

/-- A raster cell: `none` models a NaN (no-data) cell, `some q` a finite value. -/
abbrev Cell := Option ℚ

/-- The valid (non-NaN) values of a tile, in order. -/
def validValues (tile : List Cell) : List ℚ := tile.filterMap id

/-- Number of NaN cells in a tile (`numpy.sum(numpy.isnan(tile))`). -/
def nanCount (tile : List Cell) : ℕ := tile.countP (fun c => c.isNone)

/-- Mean of a list of rationals (`sum/length`; `0` on the empty list, which the
callers below never hit on the branches where the value is used). -/
def qmean (xs : List ℚ) : ℚ := xs.sum / xs.length

/-- `numpy.nanmean`: arithmetic mean of the non-NaN cells of a tile. -/
def nanmean (tile : List Cell) : ℚ := qmean (validValues tile)

/-- The `yscale × xscale` tile of `data` at output coordinates `(y, x)`:
the slice `data[y*yscale : (y+1)*yscale, x*xscale : (x+1)*xscale]`, flattened
row-major (as `numpy` iterates it for `isnan`/`nanmean`). -/
def blockOf {α : Type} (data : List (List α)) (xscale yscale y x : ℕ) : List α :=
  (((data.drop (y * yscale)).take yscale).map
    (fun row => (row.drop (x * xscale)).take xscale)).flatten

/-- Cell access on an output grid (`grid[y][x]`, NaN outside). -/
def cellAt (g : List (List Cell)) (y x : ℕ) : Cell := (g.getD y []).getD x none

/-- Value access on a raw (finite-valued) grid (`grid[y][x]`, `0` outside). -/
def rawAt (g : List (List ℚ)) (y x : ℕ) : ℚ := (g.getD y []).getD x 0

/-- The `dest` loop of `resample` (`pyrate/prepifg.py`): `dest` starts as
all-NaN; a cell is overwritten with `nanmean` of its tile exactly when
`nan_fraction < thresh or (nan_fraction == 0 and thresh == 0)`.  The output
size is `(ysize // yscale, xsize // xscale)` (Python 2 integer division). -/
def resampleGrid (data : List (List Cell)) (xscale yscale : ℕ) (thresh : ℚ) :
    List (List Cell) :=
  (List.range (data.length / yscale)).map fun y =>
    (List.range ((data.headD []).length / xscale)).map fun x =>
      let tile := blockOf data xscale yscale y x
      let nan_fraction := (nanCount tile : ℚ) / ((xscale * yscale : ℕ) : ℚ)
      if nan_fraction < thresh ∨ (nan_fraction = 0 ∧ thresh = 0) then
        some (nanmean tile)
      else none

/-- Port of `resample` (`pyrate/prepifg.py`): NaN-fraction-thresholded block
averaging; a threshold outside `[0,1]` raises `ValueError`. -/
def resample (data : List (List Cell)) (xscale yscale : ℕ) (thresh : ℚ) :
    Except String (List (List Cell)) :=
  if thresh < 0 ∨ 1 < thresh then .error "threshold must be >= 0 and <= 1"
  else .ok (resampleGrid data xscale yscale thresh)

/-- `numpy.isclose(v, 0, atol=1e-6)`: with the default `rtol = 1e-5` and a zero
reference this reduces to `|v| ≤ 1e-6`.  Used by `_setup_source`
(`pyrate/prepifg/__init__.py`) to build the band-2 "nan matrix". -/
def iscloseZero (v : ℚ) : Bool := |v| ≤ 1 / 1000000

/-- Band 2 produced by `_setup_source`: the per-pixel flag marking a source
value as missing (`numpy.isclose(data, 0, atol=1e-6)`). -/
def gdalNanMatrix (data : List (List ℚ)) : List (List Bool) :=
  data.map (·.map iscloseZero)

/-- Port of `where(data == 0, nan, data)` (`_resample_ifg`,
`pyrate/prepifg.py`): every exactly-zero cell becomes NaN before the legacy
`resample` runs. -/
def flagZero (data : List (List ℚ)) : List (List Cell) :=
  data.map (·.map (fun v => if v = 0 then none else some v))

/-- GDAL `GRA_Average` on band 1 (no-data value `0`, set by `_setup_source`):
the average of the contributing cells that differ from the no-data value;
a NaN among those contributing cells taints the sum, so the result is NaN. -/
def gdalBandOneAvg (block : List Cell) : Cell :=
  let contrib := block.filter (fun c => c ≠ some 0)
  if contrib.any (·.isNone) then none else some (qmean (validValues contrib))

/-- GDAL `GRA_Average` on band 2 (the 0/1 nan matrix; its no-data value is
`-100000`, which no cell takes, so every cell contributes): the block's
no-data fraction. -/
def gdalNanFrac (flags : List Bool) : ℚ := (flags.countP id : ℚ) / flags.length

/-- The two-band core of `gdal_average` (`pyrate/prepifg/__init__.py`):
`gdal.ReprojectImage(..., GRA_Average)` averages band 1 (values, no-data `0`)
and band 2 (nan matrix) blockwise, then the source line
`resampled_average[nan_frac >= thresh] = np.nan` replaces every output cell
whose nan fraction reaches `thresh` with NaN. -/
def gdalAverageBands (band1 : List (List Cell)) (band2 : List (List Bool))
    (xscale yscale yres xres : ℕ) (thresh : ℚ) : List (List Cell) :=
  (List.range yres).map fun y =>
    (List.range xres).map fun x =>
      let nan_frac := gdalNanFrac (blockOf band2 xscale yscale y x)
      if nan_frac ≥ thresh then none
      else gdalBandOneAvg (blockOf band1 xscale yscale y x)

/-- The GDAL preparation path applied to a raw source array: `_setup_source`
builds band 1 (the data, no-data `0`) and band 2 (`iscloseZero` flags), and
`gdal_average` block-averages both and applies the nan-fraction threshold. -/
def gdal_average (data : List (List ℚ)) (xscale yscale yres xres : ℕ)
    (thresh : ℚ) : List (List Cell) :=
  gdalAverageBands (data.map (·.map some)) (gdalNanMatrix data)
    xscale yscale yres xres thresh

/-- The per-cell rule exactly as the specification states it: the mean of the
valid cells when `f < t`, or when `f = 0` and `t = 0`; NaN otherwise. -/
def claimBlockRule (f t mean : ℚ) : Cell :=
  if f < t ∨ (f = 0 ∧ t = 0) then some mean else none

/-! ## Extent resolution and grid-alignment validation (`pyrate/prepifg.py`) -/

/-- The per-raster geographic header data the extent code reads: corner
coordinates and step sizes (`y_step` is negative for north-up grids). -/
structure IfgMeta where
  x_first : ℚ
  y_first : ℚ
  x_last : ℚ
  y_last : ℚ
  x_step : ℚ
  y_step : ℚ
deriving DecidableEq

/-- Crop option constants (`pyrate/prepifg.py`). -/
def MINIMUM_CROP : ℕ := 1

def MAXIMUM_CROP : ℕ := 2

def CUSTOM_CROP : ℕ := 3

def ALREADY_SAME_SIZE : ℕ := 4

def GRID_TOL : ℚ := 1 / 1000000

/-- Python's builtin `max` over a list; raises `ValueError` on an empty list,
which the bounds functions below never pass (the junk value `0` is unreachable
there and guarded by nonemptiness hypotheses in the theorems). -/
def pyMax : List ℚ → ℚ
  | [] => 0
  | x :: xs => xs.foldl max x

/-- Python's builtin `min` over a list (see `pyMax`). -/
def pyMin : List ℚ → ℚ
  | [] => 0
  | x :: xs => xs.foldl min x

/-- Port of `min_bounds`: the bounds of the overlapping (intersection) area,
returned as `(xmin, ymin, xmax, ymax)`. -/
def min_bounds (ifgs : List IfgMeta) : ℚ × ℚ × ℚ × ℚ :=
  (pyMax (ifgs.map (·.x_first)), pyMax (ifgs.map (·.y_last)),
   pyMin (ifgs.map (·.x_last)), pyMin (ifgs.map (·.y_first)))

/-- Port of `max_bounds`: the bounds of the total covered (union) area. -/
def max_bounds (ifgs : List IfgMeta) : ℚ × ℚ × ℚ × ℚ :=
  (pyMin (ifgs.map (·.x_first)), pyMin (ifgs.map (·.y_last)),
   pyMax (ifgs.map (·.x_last)), pyMax (ifgs.map (·.y_first)))

/-- `math.trunc` on rationals: round toward zero (the integral part
`math.modf` returns). -/
def truncQ (x : ℚ) : ℤ := if 0 ≤ x then ⌊x⌋ else ⌈x⌉

/-- The fractional part returned by `math.modf x`: `x - trunc x`, carrying the
sign of `x`. -/
def modfFrac (x : ℚ) : ℚ := x - truncQ x

/-- The remainder computed in `check_crop_coords`:
`abs(modf(abs(crop - param) / step)[0])`. -/
def cropRemainder (crop param step : ℚ) : ℚ := |modfFrac (|crop - param| / step)|

/-- One iteration of the `check_crop_coords` loop: the boundary is rejected,
with the given interpolated message, exactly when the remainder is strictly
between `GRID_TOL` and `1 - GRID_TOL`. -/
def checkCropOne (msg : String) (crop param step : ℚ) : Except String Unit :=
  if GRID_TOL < cropRemainder crop param step ∧
      cropRemainder crop param step < 1 - GRID_TOL then
    .error msg
  else .ok ()

/-- Port of `check_crop_coords`: tests the four resolved boundaries against
the grid of the first raster only (`i = ifgs[0]`), in the loop's order
`x_first ↦ xmin`, `x_last ↦ xmax`, `y_first ↦ ymax`, `y_last ↦ ymin`; the
message carries the parameter name and tolerance as in the source's
interpolation.  Indexing an empty batch is Python's `IndexError`. -/
def check_crop_coords : List IfgMeta → ℚ → ℚ → ℚ → ℚ → Except String Unit
  | [], _, _, _, _ => .error "IndexError: list index out of range"
  | i :: _, xmin, xmax, ymin, ymax => do
      checkCropOne "x_first crop extent not within 1e-06 of grid coordinate"
        xmin i.x_first i.x_step
      checkCropOne "x_last crop extent not within 1e-06 of grid coordinate"
        xmax i.x_last i.x_step
      checkCropOne "y_first crop extent not within 1e-06 of grid coordinate"
        ymax i.y_first i.y_step
      checkCropOne "y_last crop extent not within 1e-06 of grid coordinate"
        ymin i.y_last i.y_step

/-- The geotransform tuple `dataset.GetGeoTransform()` restricted to its
informative entries `(x_first, x_step, y_first, y_step)` (the two skew terms
are always `0` for these rasters). -/
def geoTransform (i : IfgMeta) : ℚ × ℚ × ℚ × ℚ :=
  (i.x_first, i.x_step, i.y_first, i.y_step)

/-- Port of `get_same_bounds` (`ALREADY_SAME_SIZE` option): all geotransforms
must agree; the bounds are then read off the loop variable `i` leaked from the
list comprehension, i.e. the **last** raster (Python 2 scoping), with
`y_first`/`y_last` swapped when the former exceeds the latter. -/
def get_same_bounds : List IfgMeta → Except String (ℚ × ℚ × ℚ × ℚ)
  | [] => .error "NameError: name i is not defined"
  | i0 :: rest =>
      if rest.all (fun t => decide (geoTransform t = geoTransform i0)) then
        let i := (i0 :: rest).getLast (List.cons_ne_nil i0 rest)
        let p := if i.y_first > i.y_last then (i.y_last, i.y_first)
                 else (i.y_first, i.y_last)
        .ok (i.x_first, p.1, i.x_last, p.2)
      else .error "Ifgs do not have the same bounding box for crop option: 4"

/-- The custom-crop bounds of the configuration (`IFG_XFIRST` …); `none`
models an absent key (Python `KeyError` on access). -/
structure CropParams where
  crop_opt : ℕ
  ifg_xfirst : Option ℚ
  ifg_xlast : Option ℚ
  ifg_yfirst : Option ℚ
  ifg_ylast : Option ℚ

/-- Port of `get_extents`: resolves the batch bounds per crop option, then —
for **every** option — runs `check_crop_coords` before returning them. -/
def get_extents (ifgs : List IfgMeta) (params : CropParams) :
    Except String (ℚ × ℚ × ℚ × ℚ) := do
  let bounds ←
    if params.crop_opt = MINIMUM_CROP then pure (min_bounds ifgs)
    else if params.crop_opt = MAXIMUM_CROP then pure (max_bounds ifgs)
    else if params.crop_opt = CUSTOM_CROP then
      match params.ifg_xfirst, params.ifg_xlast,
            params.ifg_yfirst, params.ifg_ylast with
      | some xf, some xl, some yf, some yl => pure (xf, yl, xl, yf)
      | _, _, _, _ => Except.error "KeyError: missing custom crop bound"
    else get_same_bounds ifgs
  check_crop_coords ifgs bounds.1 bounds.2.2.1 bounds.2.1 bounds.2.2.2
  pure bounds

/-- Port of the legacy `check_looks` (`pyrate/prepifg.py`): the looks
parameters must be numeric (here by typing) and positive; equality of the two
factors is **not** checked. -/
def check_looks (xscale yscale : ℚ) : Except String Unit :=
  if ¬(xscale > 0 ∧ yscale > 0) then
    .error "Invalid looks parameter(s)"
  else .ok ()

/-! ## Coherence masking (`pyrate/prepifg/utilities.py`, `coherence_masking`) -/

/-- Port of the `numexpr` formula `where(coh >= t, src, ndv)` with `ndv = nan`,
applied pointwise over the two equally-shaped arrays. -/
def coherence_masking (src : List (List Cell)) (coh : List (List ℚ)) (t : ℚ) :
    List (List Cell) :=
  List.zipWith
    (fun srow crow => List.zipWith (fun s c => if c ≥ t then s else none) srow crow)
    src coh

/-! ## The metadata `DATA_TYPE` state machine (`_warp`, lines 141–159)

`constants.py` is absent from the sources, so the `DATA_TYPE` tag values are
modelled from the spec: the `ProcessingStage` enumeration of §3 with seven
mutually distinct members. -/

/-- Modelled from the spec: the seven `DATA_TYPE` metadata values of the
absent `constants.py` (`ORIG`, `MULTILOOKED`, `COHERENCE`, `DEM`,
`MLOOKED_DEM`, `INCIDENCE`, `MLOOKED_INC`), distinct string constants there,
an enumeration here. -/
inductive DataType
  | orig
  | multilooked
  | coherence
  | dem
  | mlookedDem
  | incidence
  | mlookedInc
deriving DecidableEq

/-- Port of the `DATA_TYPE` update chain of `_warp`
(`pyrate/prepifg/utilities.py`): the Boolean argument is the truthiness of
`coherence_path`.  A `pass` branch keeps the value; the final `else` is the
source's `raise TypeError('Data Type metadata not recognised')`. -/
def updateDataType (v : DataType) (coherence_path : Bool) :
    Except String DataType :=
  if v = .orig ∧ coherence_path then .ok .coherence
  else if v = .orig ∧ ¬coherence_path then .ok .multilooked
  else if v = .dem then .ok .mlookedDem
  else if v = .incidence then .ok .mlookedInc
  else if v = .coherence ∧ coherence_path then .ok .coherence
  else if v = .multilooked ∧ coherence_path then .ok .coherence
  else if v = .multilooked ∧ ¬coherence_path then .ok .multilooked
  else .error "Data Type metadata not recognised"

/-- The transition table of the **amended** claim, written from its words:
as the table of the original claim, except that `Coherence` is a no-op only
when coherence was applied, and `MlookedDem`/`MlookedIncidence` (like
`Coherence` without coherence and every unlisted combination) are errors. -/
def amendedTransition (v : DataType) (b : Bool) : Except String DataType :=
  match v, b with
  | .orig, false => .ok .multilooked
  | .orig, true => .ok .coherence
  | .multilooked, false => .ok .multilooked
  | .multilooked, true => .ok .coherence
  | .coherence, true => .ok .coherence
  | .dem, _ => .ok .mlookedDem
  | .incidence, _ => .ok .mlookedInc
  | _, _ => .error "Data Type metadata not recognised"

/-! ## Coherence configuration checks -/

/-- Python truthiness of an optional string (`None` and `""` are falsy). -/
def pyTruthyStr : Option String → Bool
  | none => false
  | some s => decide (s ≠ "")

/-- Python truthiness of an optional number (`None` and `0` are falsy). -/
def pyTruthyQ : Option ℚ → Bool
  | none => false
  | some q => decide (q ≠ 0)

/-- What the coherence branch decides to do with the source raster. -/
inductive CohAction
  | applyMask (path : String) (t : ℚ)
  | skip
deriving DecidableEq

/-- Port of the coherence branch of `_warp` (`pyrate/prepifg/utilities.py`,
lines 110–118): `if coherence_path and coherence_thresh: …` masks, `elif
coherence_path and not coherence_thresh: raise`, and any other combination
falls through with no masking and no error. -/
def warpCoherenceCheck (coherence_path : Option String)
    (coherence_thresh : Option ℚ) : Except String CohAction :=
  if pyTruthyStr coherence_path ∧ pyTruthyQ coherence_thresh then
    .ok (.applyMask (coherence_path.getD "") (coherence_thresh.getD 0))
  else if pyTruthyStr coherence_path ∧ ¬pyTruthyQ coherence_thresh then
    .error "Coherence file provided without a coherence threshold"
  else .ok .skip

/-- Port of the coherence branch of `_prepifg_multiprocessing`
(`pyrate/prepifg/__init__.py`, lines 173–181): the tests are `is not None`,
and both one-sided combinations raise. -/
def prepifgCoherenceCheck (coherence_path : Option String)
    (coherence_thresh : Option ℚ) : Except String CohAction :=
  match coherence_path, coherence_thresh with
  | some p, some t => .ok (.applyMask p t)
  | some _, none => .error "Coherence file provided without a coherence threshold"
  | none, some _ =>
      .error "Coherence thresh is set but path to coherence file is not supplied"
  | none, none => .ok .skip

/-! ## The per-raster preparation driver
(`prepare_ifg`, `_dummy_warp`, `_warp` of `pyrate/prepifg/utilities.py`) -/

/-- The raster state a preparation task reads: file path, band-1 pixel data,
the `DATA_TYPE` metadata tag, the remaining metadata entries, and the step
sizes.  (`core/shared.py` is absent from the sources; this record carries the
fields the prepifg code reads from an opened `Ifg`/`DEM`.) -/
structure Raster where
  path : String
  data : List (List ℚ)
  stage : DataType
  md_other : List (String × String)
  x_step : ℚ
  y_step : ℚ

/-- Observable file-system touches of a preparation task, in program order. -/
inductive Event
  | openRaster (p : String)
  | copyFile (src dst : String)
  | setMdItem (p : String)
  | writeOutput (p : String)
deriving DecidableEq

/-- The value a preparation task produces: output pixel plane (NaN-aware),
the updated `DATA_TYPE`, the untouched remaining metadata, and the output
path. -/
structure PrepResult where
  data : List (List Cell)
  stage : DataType
  md_other : List (String × String)
  outPath : String
deriving DecidableEq

/-- Port of `cf.mlooked_path` (`core/config.py`): the output path derived from
the input path plus the looks/crop suffix (the extension splitting of the
original is elided; the suffix string is as in the source). -/
def mlooked_path (path : String) (looks crop_out : ℕ) : String :=
  path ++ "_" ++ toString looks ++ "rlks_" ++ toString crop_out ++ "cr"

/-- Port of `_warp`.  The first statement rejects unequal look factors before
any file access of its own; then `_crop_resample_setup` and `_setup_source`
open the input, the coherence branch optionally masks, `gdal_average`
resamples, the `DATA_TYPE` chain updates the metadata, and the output is
written.  `cohData` stands for the pixel contents the coherence raster at
`coherence_path` holds on disk.  The geographic output window of
`ReprojectImage` (computed in `_crop_resample_setup` from `extent`) is not
re-derived here: the output plane is the block average at the native origin
with `ysize/ylooks × xsize/xlooks` cells; every claim about pixel contents is
settled against `resample`/`gdal_average`/`coherence_masking` directly. -/
def warpFn (raster : Raster) (xlooks ylooks : ℕ) (thresh : ℚ) (crop_out : ℕ)
    (coherence_path : Option String) (coherence_thresh : Option ℚ)
    (cohData : List (List ℚ)) (ev0 : List Event) :
    Except String PrepResult × List Event :=
  if xlooks ≠ ylooks then (.error "X and Y looks mismatch", ev0)
  else
    let looks_path := mlooked_path raster.path ylooks crop_out
    let ev1 := ev0 ++ [Event.openRaster raster.path, Event.openRaster raster.path]
    match warpCoherenceCheck coherence_path coherence_thresh with
    | .error e => (.error e, ev1)
    | .ok act =>
      let band2 := gdalNanMatrix raster.data
      let band1 : List (List Cell) := raster.data.map (·.map some)
      let (src, ev2) :=
        match act with
        | .applyMask p t =>
            (coherence_masking band1 cohData t,
             ev1 ++ [Event.openRaster p, Event.openRaster p])
        | .skip => (band1, ev1)
      let resampled := gdalAverageBands src band2 xlooks ylooks
        (raster.data.length / ylooks) ((raster.data.headD []).length / xlooks)
        thresh
      match updateDataType raster.stage (pyTruthyStr coherence_path) with
      | .error e => (.error e, ev2)
      | .ok st =>
          (.ok { data := resampled, stage := st, md_other := raster.md_other,
                 outPath := looks_path },
           ev2 ++ [Event.writeOutput looks_path])

/-- Port of `prepare_ifg` (`pyrate/prepifg/utilities.py`).  `dem_or_ifg` and
`raster.open()` open the input; with no multilooking (`xlooks ≤ 1` and
`ylooks ≤ 1`) under `ALREADY_SAME_SIZE` the file is copied to the renamed path
and `_dummy_warp` merely re-opens the copy, stamps `DATA_TYPE = MULTILOOKED`
and returns its pixel data unchanged; otherwise `_warp` runs. -/
def prepare_ifg (raster : Raster) (xlooks ylooks : ℕ) (thresh : ℚ)
    (crop_opt : ℕ) (coherence_path : Option String)
    (coherence_thresh : Option ℚ) (cohData : List (List ℚ)) :
    Except String PrepResult × List Event :=
  let do_multilook := xlooks > 1 ∨ ylooks > 1
  let ev0 := [Event.openRaster raster.path, Event.openRaster raster.path]
  if ¬do_multilook ∧ crop_opt = ALREADY_SAME_SIZE then
    let renamed := mlooked_path raster.path xlooks crop_opt
    (.ok { data := raster.data.map (·.map some), stage := .multilooked,
           md_other := raster.md_other, outPath := renamed },
     ev0 ++ [Event.copyFile raster.path renamed, Event.openRaster renamed,
             Event.setMdItem renamed])
  else
    warpFn raster xlooks ylooks thresh crop_opt coherence_path coherence_thresh
      cohData ev0

/-! ## Helper lemmas -/

theorem getD_map {α β : Type} (f : α → β) (l : List α) (i : ℕ) (h : i < l.length)
    (d : β) (d' : α) : (l.map f).getD i d = f (l.getD i d') := by
  induction l generalizing i with
  | nil => simp at h
  | cons a as ih =>
    cases i with
    | zero => rfl
    | succ n => exact ih n (by simpa using h)

theorem getD_zipWith {α β γ : Type} (f : α → β → γ) (la : List α) (lb : List β)
    (i : ℕ) (ha : i < la.length) (hb : i < lb.length) (dc : γ) (da : α) (db : β) :
    (List.zipWith f la lb).getD i dc = f (la.getD i da) (lb.getD i db) := by
  induction la generalizing lb i with
  | nil => simp at ha
  | cons a as ih =>
    cases lb with
    | nil => simp at hb
    | cons b bs =>
      cases i with
      | zero => rfl
      | succ n => exact ih bs n (by simpa using ha) (by simpa using hb)

theorem getD_map_range {α : Type} (f : ℕ → α) (n i : ℕ) (h : i < n) (d : α) :
    ((List.range n).map f).getD i d = f i := by
  rw [List.getD_eq_getElem?_getD, List.getElem?_map, List.getElem?_range h]
  rfl

/-- A full-rank tile of a rectangular grid has exactly `yscale * xscale`
cells. -/
theorem blockOf_length {α : Type} (data : List (List α)) (xs ys y x w : ℕ)
    (hw : ∀ row ∈ data, row.length = w)
    (hy : (y + 1) * ys ≤ data.length) (hx : (x + 1) * xs ≤ w) :
    (blockOf data xs ys y x).length = ys * xs := by
  have hy' : y * ys + ys ≤ data.length := by rw [add_mul, one_mul] at hy; exact hy
  have hx' : x * xs + xs ≤ w := by rw [add_mul, one_mul] at hx; exact hx
  rw [blockOf, List.length_flatten, List.map_map]
  have hall : ∀ v ∈ ((data.drop (y * ys)).take ys).map
      (List.length ∘ fun row => (row.drop (x * xs)).take xs), v = xs := by
    intro v hv
    obtain ⟨row, hrow, hveq⟩ := List.mem_map.1 hv
    have hmem : row ∈ data :=
      List.drop_subset (y * ys) data (List.take_subset ys _ hrow)
    have : v = min xs (row.length - x * xs) := by
      rw [← hveq]
      simp [List.length_take, List.length_drop]
    rw [this, hw row hmem]
    omega
  rw [List.sum_eq_card_nsmul _ xs hall, List.length_map, List.length_take,
    List.length_drop, smul_eq_mul]
  have : min ys (data.length - y * ys) = ys := by omega
  rw [this]

/-- Extracting a tile commutes with a cellwise map. -/
theorem blockOf_map {α β : Type} (f : α → β) (data : List (List α))
    (xs ys y x : ℕ) :
    blockOf (data.map (·.map f)) xs ys y x = (blockOf data xs ys y x).map f := by
  rw [blockOf, blockOf, List.map_flatten, List.map_map, ← List.map_drop,
    ← List.map_take, List.map_map]
  congr 1
  refine List.map_congr_left ?_
  intro row _
  simp [List.map_take, List.map_drop]

/-! ### `pyMax` / `pyMin` as the maximum / minimum of a nonempty list -/

theorem foldl_max_eq_or_mem (xs : List ℚ) (a : ℚ) :
    xs.foldl max a = a ∨ xs.foldl max a ∈ xs := by
  induction xs generalizing a with
  | nil => exact Or.inl rfl
  | cons x xs ih =>
    rcases ih (max a x) with h | h
    · rcases max_choice a x with hm | hm
      · exact Or.inl (by rw [List.foldl_cons, h, hm])
      · exact Or.inr (by rw [List.foldl_cons, h, hm]; exact List.mem_cons_self x xs)
    · exact Or.inr (List.mem_cons_of_mem x h)

theorem le_foldl_max (xs : List ℚ) (a : ℚ) :
    a ≤ xs.foldl max a ∧ ∀ x ∈ xs, x ≤ xs.foldl max a := by
  induction xs generalizing a with
  | nil => exact ⟨le_refl a, by simp⟩
  | cons x xs ih =>
    refine ⟨le_trans (le_max_left a x) (ih (max a x)).1, ?_⟩
    intro v hv
    rcases List.mem_cons.1 hv with rfl | hv
    · exact le_trans (le_max_right a v) (ih (max a v)).1
    · exact (ih (max a x)).2 v hv

theorem pyMax_mem {l : List ℚ} (h : l ≠ []) : pyMax l ∈ l := by
  match l with
  | x :: xs =>
    rcases foldl_max_eq_or_mem xs x with hm | hm
    · rw [pyMax, hm]; exact List.mem_cons_self x xs
    · exact List.mem_cons_of_mem x (by rw [pyMax]; exact hm)

theorem le_pyMax {l : List ℚ} {v : ℚ} (hv : v ∈ l) : v ≤ pyMax l := by
  match l with
  | x :: xs =>
    rcases List.mem_cons.1 hv with rfl | hv
    · exact (le_foldl_max xs v).1
    · exact (le_foldl_max xs x).2 v hv

theorem foldl_min_eq_or_mem (xs : List ℚ) (a : ℚ) :
    xs.foldl min a = a ∨ xs.foldl min a ∈ xs := by
  induction xs generalizing a with
  | nil => exact Or.inl rfl
  | cons x xs ih =>
    rcases ih (min a x) with h | h
    · rcases min_choice a x with hm | hm
      · exact Or.inl (by rw [List.foldl_cons, h, hm])
      · exact Or.inr (by rw [List.foldl_cons, h, hm]; exact List.mem_cons_self x xs)
    · exact Or.inr (List.mem_cons_of_mem x h)

theorem foldl_min_le (xs : List ℚ) (a : ℚ) :
    xs.foldl min a ≤ a ∧ ∀ x ∈ xs, xs.foldl min a ≤ x := by
  induction xs generalizing a with
  | nil => exact ⟨le_refl a, by simp⟩
  | cons x xs ih =>
    refine ⟨le_trans (ih (min a x)).1 (min_le_left a x), ?_⟩
    intro v hv
    rcases List.mem_cons.1 hv with rfl | hv
    · exact le_trans (ih (min a v)).1 (min_le_right a v)
    · exact (ih (min a x)).2 v hv

theorem pyMin_mem {l : List ℚ} (h : l ≠ []) : pyMin l ∈ l := by
  match l with
  | x :: xs =>
    rcases foldl_min_eq_or_mem xs x with hm | hm
    · rw [pyMin, hm]; exact List.mem_cons_self x xs
    · exact List.mem_cons_of_mem x (by rw [pyMin]; exact hm)

theorem pyMin_le {l : List ℚ} {v : ℚ} (hv : v ∈ l) : pyMin l ≤ v := by
  match l with
  | x :: xs =>
    rcases List.mem_cons.1 hv with rfl | hv
    · exact (foldl_min_le xs v).1
    · exact (foldl_min_le xs x).2 v hv

theorem pyMax_perm {l₁ l₂ : List ℚ} (hp : l₁.Perm l₂) (h : l₁ ≠ []) :
    pyMax l₁ = pyMax l₂ := by
  have h₂ : l₂ ≠ [] := fun he => h (List.Perm.eq_nil (he ▸ hp))
  exact le_antisymm (le_pyMax (hp.subset (pyMax_mem h)))
    (le_pyMax (hp.symm.subset (pyMax_mem h₂)))

theorem pyMin_perm {l₁ l₂ : List ℚ} (hp : l₁.Perm l₂) (h : l₁ ≠ []) :
    pyMin l₁ = pyMin l₂ := by
  have h₂ : l₂ ≠ [] := fun he => h (List.Perm.eq_nil (he ▸ hp))
  exact le_antisymm (pyMin_le (hp.symm.subset (pyMin_mem h₂)))
    (pyMin_le (hp.subset (pyMin_mem h)))

/-- GDAL band-1 averaging of a finite-valued (no-NaN) source block never
produces NaN. -/
theorem gdalBandOneAvg_map_some (l : List ℚ) :
    gdalBandOneAvg (l.map some) ≠ none := by
  rw [gdalBandOneAvg]
  split_ifs with h
  · exfalso
    obtain ⟨c, hc, hcn⟩ := List.any_eq_true.mp h
    have hc' := List.mem_of_mem_filter hc
    obtain ⟨a, -, rfl⟩ := List.mem_map.1 hc'
    simp at hcn
  · simp

/-! ## Claim C1 — the block-averaging threshold rule -/

/-- C1, counterexample.  At threshold `t = 0` on a fully valid block
(no-data fraction `f = 0`), the claim's rule demands the block mean, but the
GDAL path (`gdal_average`, with its `resampled_average[nan_frac >= thresh] =
np.nan` masking) produces no-data: every cell is no-data at `t = 0`. -/
theorem C1_counterexample :
    cellAt (gdal_average [[5]] 1 1 1 1 0) 0 0 = none ∧
    gdalNanFrac (blockOf (gdalNanMatrix [[(5 : ℚ)]]) 1 1 0 0) = 0 ∧
    claimBlockRule 0 0 5 = some 5 := by
  have hb2 : gdalNanMatrix [[(5 : ℚ)]] = [[false]] := by
    norm_num [gdalNanMatrix, iscloseZero]
  have hnf : gdalNanFrac (blockOf (gdalNanMatrix [[(5 : ℚ)]]) 1 1 0 0) = 0 := by
    rw [hb2]
    norm_num [gdalNanFrac, blockOf]
  refine ⟨?_, hnf, by rw [claimBlockRule, if_pos (Or.inr ⟨rfl, rfl⟩)]⟩
  rw [cellAt, gdal_average, gdalAverageBands,
    getD_map_range _ _ _ (by norm_num : (0 : ℕ) < 1),
    getD_map_range _ _ _ (by norm_num : (0 : ℕ) < 1)]
  rw [if_pos (by rw [hnf])]

/-- C1, amended.  The legacy `resample` follows the claim's rule exactly
(mean iff `f < t` or `f = 0 = t`, with the claimed `t = 0` and `t = 1`
boundary laws); the GDAL path instead marks an output cell no-data **iff**
`f ≥ t` — the `f = 0 ∧ t = 0` exception does not hold there, so at `t = 0` a
GDAL-path cell is always no-data even over a fully valid block. -/
theorem C1_amended :
    (∀ (data : List (List Cell)) (xs ys : ℕ) (t : ℚ),
      0 < xs → 0 < ys → 0 ≤ t → t ≤ 1 →
      (∀ row ∈ data, row.length = (data.headD []).length) →
      ∀ y x, y < data.length / ys → x < (data.headD []).length / xs →
      resample data xs ys t = .ok (resampleGrid data xs ys t) ∧
      cellAt (resampleGrid data xs ys t) y x =
        claimBlockRule
          ((nanCount (blockOf data xs ys y x) : ℚ) / ((xs * ys : ℕ) : ℚ)) t
          (nanmean (blockOf data xs ys y x)) ∧
      (t = 0 → (cellAt (resampleGrid data xs ys t) y x = none ↔
        ∃ c ∈ blockOf data xs ys y x, c = none)) ∧
      (t = 1 → (cellAt (resampleGrid data xs ys t) y x = none ↔
        ∀ c ∈ blockOf data xs ys y x, c = none))) ∧
    (∀ (data : List (List ℚ)) (xs ys yres xres : ℕ) (t : ℚ),
      ∀ y x, y < yres → x < xres →
      (cellAt (gdal_average data xs ys yres xres t) y x = none ↔
        t ≤ gdalNanFrac (blockOf (gdalNanMatrix data) xs ys y x))) := by
  constructor
  · intro data xs ys t hxs hys ht0 ht1 hrect y x hy hx
    have ht : ¬(t < 0 ∨ 1 < t) := by
      rw [not_or]
      exact ⟨not_lt.mpr ht0, not_lt.mpr ht1⟩
    have hN : (0 : ℚ) < ((xs * ys : ℕ) : ℚ) :=
      Nat.cast_pos.mpr (Nat.mul_pos hxs hys)
    have hcell : cellAt (resampleGrid data xs ys t) y x =
        (if (nanCount (blockOf data xs ys y x) : ℚ) / ((xs * ys : ℕ) : ℚ) < t ∨
            ((nanCount (blockOf data xs ys y x) : ℚ) / ((xs * ys : ℕ) : ℚ) = 0 ∧
              t = 0) then
          some (nanmean (blockOf data xs ys y x))
        else none) := by
      rw [cellAt, resampleGrid, getD_map_range _ _ _ hy, getD_map_range _ _ _ hx]
    have hfge : (0 : ℚ) ≤ (nanCount (blockOf data xs ys y x) : ℚ) /
        ((xs * ys : ℕ) : ℚ) :=
      div_nonneg (Nat.cast_nonneg _) hN.le
    refine ⟨by rw [resample, if_neg ht], by rw [hcell, claimBlockRule], ?_, ?_⟩
    · rintro rfl
      by_cases hz : nanCount (blockOf data xs ys y x) = 0
      · rw [hcell, if_pos (Or.inr ⟨by rw [hz]; simp, rfl⟩)]
        constructor
        · intro h
          exact absurd h (by simp)
        · rintro ⟨c, hc, rfl⟩
          have := List.countP_eq_zero.mp hz none hc
          simp at this
      · have hfne : (nanCount (blockOf data xs ys y x) : ℚ) /
            ((xs * ys : ℕ) : ℚ) ≠ 0 :=
          div_ne_zero (Nat.cast_ne_zero.mpr hz) hN.ne'
        rw [hcell, if_neg (by rw [not_or]; exact
          ⟨not_lt.mpr hfge, fun hc => hfne hc.1⟩)]
        constructor
        · intro _
          obtain ⟨c, hc, hcp⟩ := List.countP_pos_iff.mp (Nat.pos_of_ne_zero hz)
          exact ⟨c, hc, Option.isNone_iff_eq_none.mp hcp⟩
        · intro _
          rfl
    · rintro rfl
      have hyb : (y + 1) * ys ≤ data.length :=
        (Nat.le_div_iff_mul_le hys).mp hy
      have hxb : (x + 1) * xs ≤ (data.headD []).length :=
        (Nat.le_div_iff_mul_le hxs).mp hx
      have hlen : (blockOf data xs ys y x).length = ys * xs :=
        blockOf_length data xs ys y x _ hrect hyb hxb
      have hcle : nanCount (blockOf data xs ys y x) ≤ xs * ys := by
        calc nanCount (blockOf data xs ys y x)
            ≤ (blockOf data xs ys y x).length := List.countP_le_length _
          _ = ys * xs := hlen
          _ = xs * ys := mul_comm ys xs
      by_cases hful : nanCount (blockOf data xs ys y x) = xs * ys
      · have hf1 : (nanCount (blockOf data xs ys y x) : ℚ) /
            ((xs * ys : ℕ) : ℚ) = 1 := by
          rw [div_eq_one_iff_eq hN.ne']
          exact_mod_cast hful
        rw [hcell, if_neg (by
          rw [not_or]
          constructor
          · rw [hf1]
            exact lt_irrefl 1
          · rintro ⟨-, h10⟩
            exact one_ne_zero h10)]
        constructor
        · intro _ c hc
          have hcl : nanCount (blockOf data xs ys y x) =
              (blockOf data xs ys y x).length := by
            rw [hful, hlen, mul_comm ys xs]
          have hall := List.countP_eq_length.mp hcl
          exact Option.isNone_iff_eq_none.mp (hall c hc)
        · intro _
          rfl
      · have hlt : nanCount (blockOf data xs ys y x) < xs * ys :=
          lt_of_le_of_ne hcle hful
        have hflt : (nanCount (blockOf data xs ys y x) : ℚ) /
            ((xs * ys : ℕ) : ℚ) < 1 := by
          rw [div_lt_one hN]
          exact_mod_cast hlt
        rw [hcell, if_pos (Or.inl hflt)]
        constructor
        · intro h
          exact absurd h (by simp)
        · intro hall
          exfalso
          apply hful
          have : nanCount (blockOf data xs ys y x) =
              (blockOf data xs ys y x).length :=
            List.countP_eq_length.mpr fun c hc =>
              Option.isNone_iff_eq_none.mpr (hall c hc)
          rw [this, hlen, mul_comm ys xs]
  · intro data xs ys yres xres t y x hy hx
    have hcell : cellAt (gdal_average data xs ys yres xres t) y x =
        (if gdalNanFrac (blockOf (gdalNanMatrix data) xs ys y x) ≥ t then none
         else gdalBandOneAvg (blockOf (data.map (·.map some)) xs ys y x)) := by
      rw [cellAt, gdal_average, gdalAverageBands, getD_map_range _ _ _ hy,
        getD_map_range _ _ _ hx]
    constructor
    · intro h
      by_contra hge
      rw [hcell, if_neg hge, blockOf_map] at h
      exact gdalBandOneAvg_map_some _ h
    · intro hge
      rw [hcell, if_pos hge]

/-- C1, witness for the amended theorem: a single `2 × 2` block with one NaN
cell (`f = 1/4 < 1/2`) on the legacy path, and a fully valid `1 × 1` block on
the GDAL path. -/
theorem C1_witness :
    (resample ([[some 1, none], [some 3, some 5]] : List (List Cell)) 2 2 (1/2) =
      .ok (resampleGrid ([[some 1, none], [some 3, some 5]] : List (List Cell))
        2 2 (1/2)) ∧
     cellAt (resampleGrid ([[some 1, none], [some 3, some 5]] : List (List Cell))
        2 2 (1/2)) 0 0 =
      claimBlockRule
        ((nanCount (blockOf ([[some 1, none], [some 3, some 5]] :
          List (List Cell)) 2 2 0 0) : ℚ) / (((2 * 2 : ℕ) : ℚ))) (1/2)
        (nanmean (blockOf ([[some 1, none], [some 3, some 5]] :
          List (List Cell)) 2 2 0 0)) ∧
     ((1 : ℚ)/2 = 0 →
       (cellAt (resampleGrid ([[some 1, none], [some 3, some 5]] :
          List (List Cell)) 2 2 (1/2)) 0 0 = none ↔
        ∃ c ∈ blockOf ([[some 1, none], [some 3, some 5]] : List (List Cell))
          2 2 0 0, c = none)) ∧
     ((1 : ℚ)/2 = 1 →
       (cellAt (resampleGrid ([[some 1, none], [some 3, some 5]] :
          List (List Cell)) 2 2 (1/2)) 0 0 = none ↔
        ∀ c ∈ blockOf ([[some 1, none], [some 3, some 5]] : List (List Cell))
          2 2 0 0, c = none))) ∧
    (cellAt (gdal_average [[5]] 1 1 1 1 (1/2)) 0 0 = none ↔
      (1 : ℚ)/2 ≤ gdalNanFrac (blockOf (gdalNanMatrix [[(5 : ℚ)]]) 1 1 0 0)) :=
  ⟨C1_amended.1 ([[some 1, none], [some 3, some 5]] : List (List Cell)) 2 2 (1/2)
    (by norm_num) (by norm_num) (by norm_num) (by norm_num)
    (by decide) 0 0 (by norm_num) (by norm_num),
   C1_amended.2 [[5]] 1 1 1 1 (1/2) 0 0 (by norm_num) (by norm_num)⟩

/-- `filterMap` with the zero-flagging function keeps exactly the nonzero
values. -/
theorem filterMap_flag_zero (l : List ℚ) :
    l.filterMap (fun v => if v = 0 then none else some v) =
      l.filter (fun v => decide (v ≠ 0)) := by
  induction l with
  | nil => rfl
  | cons a as ih =>
    by_cases ha : a = 0 <;>
      simp [List.filterMap_cons, List.filter_cons, ha, ih]

/-! ## Claim C10 — the implicit zero-as-missing convention -/

/-- C10.  Before block averaging, a source pixel is converted to no-data
exactly when it is zero (legacy path: exact equality) or within `1e-6` of
zero (GDAL path's band-2 flag); and in every averaging block of the
zero-flagged legacy data, the NaN count equals the number of zero-valued
source pixels (they are counted as missing) while the mean's contributors are
exactly the nonzero source values — a genuinely zero-valued pixel never
survives as valid data. -/
theorem C10_zero_as_missing :
    ∀ (data : List (List ℚ)) (y x : ℕ),
    y < data.length → x < (data.getD y []).length →
    (cellAt (flagZero data) y x = none ↔ rawAt data y x = 0) ∧
    (((gdalNanMatrix data).getD y []).getD x false = true ↔
      |rawAt data y x| ≤ 1 / 1000000) ∧
    (∀ xs ys yb xb,
      nanCount (blockOf (flagZero data) xs ys yb xb) =
        (blockOf data xs ys yb xb).countP (fun v => decide (v = 0)) ∧
      validValues (blockOf (flagZero data) xs ys yb xb) =
        (blockOf data xs ys yb xb).filter (fun v => decide (v ≠ 0))) := by
  intro data y x hy hx
  refine ⟨?_, ?_, ?_⟩
  · rw [cellAt, flagZero, getD_map _ data y hy [] [],
      getD_map _ (data.getD y []) x hx none 0]
    unfold rawAt
    split_ifs with h
    · exact iff_of_true rfl h
    · exact iff_of_false (by simp) h
  · rw [gdalNanMatrix, getD_map _ data y hy [] [],
      getD_map _ (data.getD y []) x hx false 0]
    unfold rawAt iscloseZero
    exact decide_eq_true_eq.to_iff
  · intro xs ys yb xb
    rw [flagZero, blockOf_map]
    constructor
    · rw [nanCount, List.countP_map]
      refine List.countP_congr ?_
      intro v _
      by_cases hv : v = 0 <;> simp [hv]
    · rw [validValues, List.filterMap_map]
      rw [show (id ∘ fun v => if v = (0 : ℚ) then none else some v)
          = fun v => if v = (0 : ℚ) then none else some v from rfl]
      exact filterMap_flag_zero _

/-- C10, witness: a grid holding an exact zero (legacy-flagged), a value
within the GDAL tolerance, and ordinary values. -/
theorem C10_witness :
    (cellAt (flagZero ([[0, 3], [1/2000000, 5]] : List (List ℚ))) 0 0 = none ↔
      rawAt ([[0, 3], [1/2000000, 5]] : List (List ℚ)) 0 0 = 0) ∧
    (((gdalNanMatrix ([[0, 3], [1/2000000, 5]] : List (List ℚ))).getD 0
        []).getD 0 false = true ↔
      |rawAt ([[0, 3], [1/2000000, 5]] : List (List ℚ)) 0 0| ≤ 1 / 1000000) ∧
    (∀ xs ys yb xb,
      nanCount (blockOf (flagZero ([[0, 3], [1/2000000, 5]] : List (List ℚ)))
          xs ys yb xb) =
        (blockOf ([[0, 3], [1/2000000, 5]] : List (List ℚ)) xs ys yb xb).countP
          (fun v => decide (v = 0)) ∧
      validValues (blockOf (flagZero ([[0, 3], [1/2000000, 5]] :
          List (List ℚ))) xs ys yb xb) =
        (blockOf ([[0, 3], [1/2000000, 5]] : List (List ℚ)) xs ys yb xb).filter
          (fun v => decide (v ≠ 0))) :=
  C10_zero_as_missing ([[0, 3], [1/2000000, 5]] : List (List ℚ)) 0 0
    (by norm_num) (by norm_num)

/-! ## Claim C2 — the metadata lifecycle transition function -/

/-- C2, counterexample.  The claim states that stage `Coherence` is a no-op
for **both** values of `coherence_applied` and that `MlookedDem` and
`MlookedIncidence` stay unchanged with no error; the `DATA_TYPE` chain of
`_warp` instead raises `TypeError` for `Coherence` with `coherence_applied =
false` and for `MlookedDem`/`MlookedIncidence` with either value. -/
theorem C2_counterexample :
    updateDataType .coherence false = .error "Data Type metadata not recognised" ∧
    updateDataType .mlookedDem false = .error "Data Type metadata not recognised" ∧
    updateDataType .mlookedDem true = .error "Data Type metadata not recognised" ∧
    updateDataType .mlookedInc false = .error "Data Type metadata not recognised" ∧
    updateDataType .mlookedInc true = .error "Data Type metadata not recognised" :=
  ⟨rfl, rfl, rfl, rfl, rfl⟩

/-- C2, amended.  The `DATA_TYPE` transition function agrees everywhere with
the corrected table: `Orig ↦ Multilooked`/`Coherence` and `Multilooked ↦
Multilooked`/`Coherence` by `coherence_applied`, `Coherence` a no-op only when
`coherence_applied` is true, `Dem ↦ MlookedDem` and `Incidence ↦
MlookedIncidence` for either flag value, and **every** other combination —
including `Coherence` without coherence and the already-terminal
`MlookedDem`/`MlookedIncidence` — raises the metadata-state error. -/
theorem C2_amended : ∀ (v : DataType) (b : Bool),
    updateDataType v b = amendedTransition v b := by
  intro v b
  cases v <;> cases b <;> rfl

/-! ## Claim C6 — coherence configuration consistency -/

/-- C6, counterexample.  In `_warp` a coherence threshold supplied without a
coherence raster path does **not** raise: the branch falls through and masking
is silently skipped. -/
theorem C6_counterexample :
    warpCoherenceCheck none (some (1/2)) = .ok .skip := rfl

/-- C6, amended.  The two halves are checked independently only in
`_prepifg_multiprocessing`; `_warp` raises for a (truthy) coherence path
without a threshold, but silently skips masking when a threshold is supplied
without a path. -/
theorem C6_amended : ∀ (p : String) (t : ℚ), p ≠ "" →
    prepifgCoherenceCheck (some p) none =
      .error "Coherence file provided without a coherence threshold" ∧
    prepifgCoherenceCheck none (some t) =
      .error "Coherence thresh is set but path to coherence file is not supplied" ∧
    warpCoherenceCheck (some p) none =
      .error "Coherence file provided without a coherence threshold" ∧
    warpCoherenceCheck none (some t) = .ok .skip := by
  intro p t hp
  refine ⟨rfl, rfl, ?_, rfl⟩
  simp [warpCoherenceCheck, pyTruthyStr, pyTruthyQ, hp]

/-- C6, witness for the amended theorem at a concrete configuration. -/
theorem C6_witness :
    prepifgCoherenceCheck (some "coh.tif") none =
      .error "Coherence file provided without a coherence threshold" ∧
    prepifgCoherenceCheck none (some (1/2)) =
      .error "Coherence thresh is set but path to coherence file is not supplied" ∧
    warpCoherenceCheck (some "coh.tif") none =
      .error "Coherence file provided without a coherence threshold" ∧
    warpCoherenceCheck none (some (1/2)) = .ok .skip :=
  C6_amended "coh.tif" (1/2) (by decide)

/-! ## Claim C8 — degenerate-case bypass -/

/-- C8.  With `x_looks = y_looks = 1` under `ALREADY_SAME_SIZE`, `prepare_ifg`
bypasses the resampler: the file is copied, the pixel plane of the result is
the source plane unchanged, the non-stage metadata is untouched, only the
`DATA_TYPE` tag is updated, and the only file-system touches are the two input
opens, the copy, the re-open of the copy and the metadata stamp — no resample
output is written. -/
theorem C8_degenerate_bypass :
    ∀ (raster : Raster) (thresh : ℚ) (coherence_path : Option String)
      (coherence_thresh : Option ℚ) (cohData : List (List ℚ)),
    prepare_ifg raster 1 1 thresh ALREADY_SAME_SIZE coherence_path
        coherence_thresh cohData =
      (.ok { data := raster.data.map (·.map some), stage := .multilooked,
             md_other := raster.md_other,
             outPath := mlooked_path raster.path 1 ALREADY_SAME_SIZE },
       [Event.openRaster raster.path, Event.openRaster raster.path,
        Event.copyFile raster.path (mlooked_path raster.path 1 ALREADY_SAME_SIZE),
        Event.openRaster (mlooked_path raster.path 1 ALREADY_SAME_SIZE),
        Event.setMdItem (mlooked_path raster.path 1 ALREADY_SAME_SIZE)]) := by
  intro raster thresh coherence_path coherence_thresh cohData
  rfl

/-! ## Claim C9 — unequal look factors -/

/-- C9, counterexample.  With `x_looks = 2`, `y_looks = 3` the preparation of
a concrete raster does raise the looks-mismatch error, but only **after** the
input raster has been opened (twice): the trace of file touches preceding the
error is not empty, refuting "no raster file is opened … before the check
fires". -/
theorem C9_counterexample :
    (prepare_ifg ⟨"ifg0.tif", [[1]], .orig, [], 1, -1⟩ 2 3 (1/2) 1
        none none []).1 = .error "X and Y looks mismatch" ∧
    (prepare_ifg ⟨"ifg0.tif", [[1]], .orig, [], 1, -1⟩ 2 3 (1/2) 1
        none none []).2 =
      [Event.openRaster "ifg0.tif", Event.openRaster "ifg0.tif"] ∧
    (prepare_ifg ⟨"ifg0.tif", [[1]], .orig, [], 1, -1⟩ 2 3 (1/2) 1
        none none []).2 ≠ [] := by
  refine ⟨rfl, rfl, ?_⟩
  rw [show (prepare_ifg ⟨"ifg0.tif", [[1]], .orig, [], 1, -1⟩ 2 3 (1/2) 1
      none none []).2 =
    [Event.openRaster "ifg0.tif", Event.openRaster "ifg0.tif"] from rfl]
  simp

/-- C9, amended.  Unequal (positive) look factors always raise the
looks-mismatch `ValueError` of `_warp`, but only after the input raster has
been opened by `dem_or_ifg`/`raster.open`: the touch trace at the error is
exactly the two opens of the input, and the legacy `check_looks` validation
(which runs before any raster is opened in the legacy driver) does **not**
reject the mismatch — it only checks positivity. -/
theorem C9_amended :
    ∀ (raster : Raster) (xlooks ylooks : ℕ) (thresh : ℚ) (crop_opt : ℕ)
      (coherence_path : Option String) (coherence_thresh : Option ℚ)
      (cohData : List (List ℚ)),
    1 ≤ xlooks → 1 ≤ ylooks → xlooks ≠ ylooks →
    (prepare_ifg raster xlooks ylooks thresh crop_opt coherence_path
        coherence_thresh cohData).1 = .error "X and Y looks mismatch" ∧
    (prepare_ifg raster xlooks ylooks thresh crop_opt coherence_path
        coherence_thresh cohData).2 =
      [Event.openRaster raster.path, Event.openRaster raster.path] ∧
    check_looks (xlooks : ℚ) (ylooks : ℚ) = .ok () := by
  intro raster xlooks ylooks thresh crop_opt coherence_path coherence_thresh
    cohData hx hy hne
  have hml : xlooks > 1 ∨ ylooks > 1 := by
    rcases Nat.lt_or_ge 1 xlooks with h | h
    · exact Or.inl h
    · have hx1 : xlooks = 1 := le_antisymm h hx
      rcases Nat.lt_or_ge 1 ylooks with h' | h'
      · exact Or.inr h'
      · exact absurd (hx1.trans (le_antisymm h' hy).symm) hne
  have hcond : ¬(¬(xlooks > 1 ∨ ylooks > 1) ∧ crop_opt = ALREADY_SAME_SIZE) := by
    intro hc
    exact hc.1 hml
  have hw : prepare_ifg raster xlooks ylooks thresh crop_opt coherence_path
      coherence_thresh cohData =
      warpFn raster xlooks ylooks thresh crop_opt coherence_path
        coherence_thresh cohData
        [Event.openRaster raster.path, Event.openRaster raster.path] := by
    rw [prepare_ifg, if_neg hcond]
  have hwe : warpFn raster xlooks ylooks thresh crop_opt coherence_path
      coherence_thresh cohData
      [Event.openRaster raster.path, Event.openRaster raster.path] =
      (.error "X and Y looks mismatch",
       [Event.openRaster raster.path, Event.openRaster raster.path]) := by
    rw [warpFn, if_pos hne]
  refine ⟨by rw [hw, hwe], by rw [hw, hwe], ?_⟩
  have hpos : ((xlooks : ℚ) > 0 ∧ (ylooks : ℚ) > 0) :=
    ⟨by exact_mod_cast Nat.lt_of_lt_of_le Nat.zero_lt_one hx,
     by exact_mod_cast Nat.lt_of_lt_of_le Nat.zero_lt_one hy⟩
  rw [check_looks, if_neg (not_not_intro hpos)]

/-! ### The `check_crop_coords` remainder -/

/-- The remainder `abs(modf(abs(crop - param) / step)[0])` computed by
`check_crop_coords` is the fractional part of `|crop - param| / |step|`
(the sign of the step drops out through `abs ∘ trunc`). -/
theorem cropRemainder_eq_fract {step : ℚ} (crop param : ℚ) (hs : step ≠ 0) :
    cropRemainder crop param step = Int.fract (|crop - param| / |step|) := by
  set d := |crop - param| with hd
  have hd0 : 0 ≤ d := abs_nonneg _
  rcases lt_or_gt_of_ne hs with hneg | hpos
  · -- negative step: the quotient is nonpositive, modf truncates toward zero
    have habs : |step| = -step := abs_of_neg hneg
    have hq : d / step ≤ 0 := div_nonpos_iff.mpr (Or.inl ⟨hd0, le_of_lt hneg⟩)
    rcases eq_or_lt_of_le hq with hq0 | hqlt
    · have hdz : d = 0 := by
        have := div_eq_zero_iff.mp hq0
        tauto
      rw [cropRemainder, ← hd, hdz]
      norm_num [modfFrac, truncQ, habs]
    · have htr : truncQ (d / step) = ⌈d / step⌉ :=
        if_neg (not_le.mpr hqlt)
      have hceil : (⌈d / step⌉ : ℚ) - d / step = Int.fract (-(d / step)) := by
        rw [Int.fract, Int.floor_neg]
        push_cast
        ring
      rw [cropRemainder, ← hd, modfFrac, htr,
        abs_of_nonpos (by linarith [Int.le_ceil (d / step)]), habs,
        div_neg, neg_sub, hceil]
  · have habs : |step| = step := abs_of_pos hpos
    have hq : 0 ≤ d / step := div_nonneg hd0 (le_of_lt hpos)
    have htr : truncQ (d / step) = ⌊d / step⌋ := if_pos hq
    rw [cropRemainder, ← hd, modfFrac, htr, habs, ← Int.fract,
      abs_of_nonneg (Int.fract_nonneg _)]

/-- When the boundary sits a whole number of steps from the grid origin the
remainder vanishes and the boundary check passes. -/
theorem checkCropOne_ok_of_int_step {crop param step : ℚ} (par : String)
    (hs : step ≠ 0) (k : ℤ) (hk : crop = param + k * step) :
    checkCropOne par crop param step = .ok () := by
  have hz : cropRemainder crop param step = 0 := by
    rw [cropRemainder_eq_fract crop param hs, hk]
    have : |param + k * step - param| = |(k : ℚ)| * |step| := by
      rw [add_sub_cancel_left, abs_mul]
    rw [this, mul_div_assoc, div_self (abs_ne_zero.mpr hs), mul_one,
      ← Int.cast_abs, Int.fract_intCast]
  rw [checkCropOne, if_neg]
  rw [hz]
  intro hc
  exact absurd hc.1 (by norm_num [GRID_TOL])

/-! ## Claim C4 — grid-alignment validation -/

/-- C4.  With nonzero steps, `check_crop_coords` accepts the resolved bounds
iff, for each of the four boundary/origin pairs, the fractional remainder is
within `GRID_TOL = 1e-6` of a whole number of steps (`r ≤ ε` or `r ≥ 1 - ε`);
equivalently, the grid-alignment error is raised iff some remainder lies
strictly between the two tolerances.  Moreover the check reads only the first
raster of the batch: the rest of the list is irrelevant. -/
theorem C4_grid_alignment :
    ∀ (i : IfgMeta) (rest : List IfgMeta) (xmin xmax ymin ymax : ℚ),
    i.x_step ≠ 0 → i.y_step ≠ 0 →
    ((check_crop_coords (i :: rest) xmin xmax ymin ymax = .ok ()) ↔
      ((Int.fract (|xmin - i.x_first| / |i.x_step|) ≤ GRID_TOL ∨
        1 - GRID_TOL ≤ Int.fract (|xmin - i.x_first| / |i.x_step|)) ∧
       (Int.fract (|xmax - i.x_last| / |i.x_step|) ≤ GRID_TOL ∨
        1 - GRID_TOL ≤ Int.fract (|xmax - i.x_last| / |i.x_step|)) ∧
       (Int.fract (|ymax - i.y_first| / |i.y_step|) ≤ GRID_TOL ∨
        1 - GRID_TOL ≤ Int.fract (|ymax - i.y_first| / |i.y_step|)) ∧
       (Int.fract (|ymin - i.y_last| / |i.y_step|) ≤ GRID_TOL ∨
        1 - GRID_TOL ≤ Int.fract (|ymin - i.y_last| / |i.y_step|)))) ∧
    check_crop_coords (i :: rest) xmin xmax ymin ymax =
      check_crop_coords [i] xmin xmax ymin ymax := by
  intro i rest xmin xmax ymin ymax hx hy
  refine ⟨?_, rfl⟩
  have hrw : ∀ crop param step, step ≠ 0 →
      (¬(GRID_TOL < cropRemainder crop param step ∧
          cropRemainder crop param step < 1 - GRID_TOL) ↔
        (Int.fract (|crop - param| / |step|) ≤ GRID_TOL ∨
          1 - GRID_TOL ≤ Int.fract (|crop - param| / |step|))) := by
    intro crop param step hs
    rw [cropRemainder_eq_fract crop param hs, not_and_or, not_lt, not_lt]
  rw [check_crop_coords]
  show (do
      checkCropOne "x_first crop extent not within 1e-06 of grid coordinate"
        xmin i.x_first i.x_step
      checkCropOne "x_last crop extent not within 1e-06 of grid coordinate"
        xmax i.x_last i.x_step
      checkCropOne "y_first crop extent not within 1e-06 of grid coordinate"
        ymax i.y_first i.y_step
      checkCropOne "y_last crop extent not within 1e-06 of grid coordinate"
        ymin i.y_last i.y_step : Except String Unit)
    = .ok () ↔ _
  rw [← hrw xmin i.x_first i.x_step hx, ← hrw xmax i.x_last i.x_step hx,
    ← hrw ymax i.y_first i.y_step hy, ← hrw ymin i.y_last i.y_step hy]
  unfold checkCropOne
  split_ifs with h1 h2 h3 h4 <;>
    simp_all [bind, Except.bind, pure, Except.pure]

/-- C4, witness: a batch whose resolved bounds coincide with whole-step
multiples of the first raster's grid passes the check; the second raster is
inert. -/
theorem C4_witness :
    check_crop_coords [⟨0, 0, 3, -2, 1, -1⟩, ⟨9, 9, 9, 9, 9, 9⟩]
      1 3 (-2) 0 = .ok () :=
  (C4_grid_alignment ⟨0, 0, 3, -2, 1, -1⟩ [⟨9, 9, 9, 9, 9, 9⟩] 1 3 (-2) 0
    (by norm_num) (by norm_num)).1.mpr (by norm_num [GRID_TOL])

/-! ## Claim C5 — validation under the Unchanged (`ALREADY_SAME_SIZE`) policy -/

/-- C5, counterexample.  Grid-alignment validation is **not** skipped under
`ALREADY_SAME_SIZE`: `get_extents` calls `check_crop_coords` for every crop
option, and a batch of two rasters sharing a geotransform but with an
`x_last` half a step off the reference grid raises the grid-alignment error
under that policy. -/
theorem C5_counterexample :
    get_extents [⟨0, 0, 3, -2, 1, -1⟩, ⟨0, 0, 7/2, -2, 1, -1⟩]
      ⟨ALREADY_SAME_SIZE, none, none, none, none⟩ =
      .error "x_last crop extent not within 1e-06 of grid coordinate" := by
  have r1 : cropRemainder 0 0 1 = 0 := by
    rw [cropRemainder_eq_fract 0 0 (by norm_num)]
    norm_num [Int.fract]
  have r2 : cropRemainder (7/2) 3 1 = 1/2 := by
    rw [cropRemainder_eq_fract (7/2) 3 (by norm_num),
      show |(7:ℚ)/2 - 3| / |(1:ℚ)| = 1/2 by norm_num, Int.fract]
    norm_num
  have hce1 : checkCropOne
      "x_first crop extent not within 1e-06 of grid coordinate"
      (0 : ℚ) 0 1 = .ok () := by
    rw [checkCropOne, r1, if_neg (by norm_num [GRID_TOL])]
  have hce2 : checkCropOne
      "x_last crop extent not within 1e-06 of grid coordinate"
      ((7 : ℚ)/2) 3 1 =
      .error "x_last crop extent not within 1e-06 of grid coordinate" := by
    rw [checkCropOne, r2, if_pos (by norm_num [GRID_TOL])]
  have hck : check_crop_coords
      [⟨0, 0, 3, -2, 1, -1⟩, ⟨0, 0, 7/2, -2, 1, -1⟩] 0 (7/2) (-2) 0 =
      .error "x_last crop extent not within 1e-06 of grid coordinate" := by
    rw [check_crop_coords]
    show (do
        checkCropOne "x_first crop extent not within 1e-06 of grid coordinate"
          (0 : ℚ) 0 1
        checkCropOne "x_last crop extent not within 1e-06 of grid coordinate"
          ((7 : ℚ)/2) 3 1
        checkCropOne "y_first crop extent not within 1e-06 of grid coordinate"
          (0 : ℚ) 0 (-1)
        checkCropOne "y_last crop extent not within 1e-06 of grid coordinate"
          (-2 : ℚ) (-2) (-1) : Except String Unit) = _
    rw [hce1]
    show (do
        checkCropOne "x_last crop extent not within 1e-06 of grid coordinate"
          ((7 : ℚ)/2) 3 1
        checkCropOne "y_first crop extent not within 1e-06 of grid coordinate"
          (0 : ℚ) 0 (-1)
        checkCropOne "y_last crop extent not within 1e-06 of grid coordinate"
          (-2 : ℚ) (-2) (-1) : Except String Unit) = _
    rw [hce2]
    rfl
  have hsb : get_same_bounds [⟨0, 0, 3, -2, 1, -1⟩, ⟨0, 0, 7/2, -2, 1, -1⟩] =
      .ok ((0 : ℚ), (-2 : ℚ), (7/2 : ℚ), (0 : ℚ)) := by
    rw [get_same_bounds, if_pos (by simp [geoTransform])]
    norm_num [List.getLast]
  rw [get_extents, if_neg (by decide), if_neg (by decide), if_neg (by decide)]
  show (do
      let bounds ← get_same_bounds [⟨0, 0, 3, -2, 1, -1⟩, ⟨0, 0, 7/2, -2, 1, -1⟩]
      check_crop_coords [⟨0, 0, 3, -2, 1, -1⟩, ⟨0, 0, 7/2, -2, 1, -1⟩]
        bounds.1 bounds.2.2.1 bounds.2.1 bounds.2.2.2
      pure bounds : Except String (ℚ × ℚ × ℚ × ℚ)) = _
  rw [hsb]
  show (do
      check_crop_coords [⟨0, 0, 3, -2, 1, -1⟩, ⟨0, 0, 7/2, -2, 1, -1⟩]
        0 (7/2) (-2) 0
      pure ((0 : ℚ), (-2 : ℚ), (7/2 : ℚ), (0 : ℚ))
      : Except String (ℚ × ℚ × ℚ × ℚ)) = _
  rw [hck]
  rfl

/-- C5, amended.  Under `ALREADY_SAME_SIZE` the alignment check still runs,
but for rasters whose recorded corner coordinates are whole-step multiples
from their origins (as every consistent raster's are) it always passes: the
only errors `get_extents` can produce under that policy are the
bounding-box-mismatch and empty-batch errors, never a grid-alignment one. -/
theorem C5_amended :
    ∀ (ifgs : List IfgMeta) (params : CropParams),
    params.crop_opt = ALREADY_SAME_SIZE →
    (∀ i ∈ ifgs, i.x_step ≠ 0 ∧ i.y_step ≠ 0 ∧
      (∃ c : ℤ, i.x_last = i.x_first + c * i.x_step) ∧
      (∃ r : ℤ, i.y_last = i.y_first + r * i.y_step)) →
    (∃ b, get_extents ifgs params = .ok b) ∨
    get_extents ifgs params =
      .error "Ifgs do not have the same bounding box for crop option: 4" ∨
    get_extents ifgs params = .error "NameError: name i is not defined" := by
  intro ifgs params hcrop hcons
  have h1 : ¬params.crop_opt = MINIMUM_CROP := by
    rw [hcrop]; decide
  have h2 : ¬params.crop_opt = MAXIMUM_CROP := by
    rw [hcrop]; decide
  have h3 : ¬params.crop_opt = CUSTOM_CROP := by
    rw [hcrop]; decide
  match hifg : ifgs with
  | [] =>
    right; right
    rw [get_extents, if_neg h1, if_neg h2, if_neg h3]
    rfl
  | i0 :: rest =>
    by_cases htf : rest.all (fun t => decide (geoTransform t = geoTransform i0))
    · left
      have hne0 : (i0 :: rest) ≠ [] := List.cons_ne_nil i0 rest
      -- the leaked loop variable: the last raster of the batch
      obtain ⟨iL, hiL⟩ : ∃ j, (i0 :: rest).getLast (List.cons_ne_nil i0 rest) = j :=
        ⟨_, rfl⟩
      have hLmem : iL ∈ i0 :: rest := hiL ▸ List.getLast_mem hne0
      have htfL : geoTransform iL = geoTransform i0 := by
        rcases List.mem_cons.1 hLmem with rfl | hmem
        · rfl
        · exact of_decide_eq_true (List.all_eq_true.mp htf iL hmem)
      have hxf : iL.x_first = i0.x_first := congrArg (·.1) htfL
      have hxs : iL.x_step = i0.x_step := congrArg (·.2.1) htfL
      have hyf : iL.y_first = i0.y_first := congrArg (·.2.2.1) htfL
      have hys : iL.y_step = i0.y_step := congrArg (·.2.2.2) htfL
      obtain ⟨hxs0, hys0, ⟨c0, hc0⟩, ⟨r0, hr0⟩⟩ :=
        hcons i0 (List.mem_cons_self i0 rest)
      obtain ⟨-, -, ⟨cL, hcL⟩, ⟨rL, hrL⟩⟩ := hcons iL hLmem
      have hy1 : iL.y_last = i0.y_first + rL * i0.y_step := by
        rw [hrL, hyf, hys]
      -- the resolved bounds under ALREADY_SAME_SIZE
      obtain ⟨p, hp⟩ : ∃ p : ℚ × ℚ,
          (if iL.y_first > iL.y_last then (iL.y_last, iL.y_first)
           else (iL.y_first, iL.y_last)) = p := ⟨_, rfl⟩
      have hsame : get_same_bounds (i0 :: rest) =
          .ok (iL.x_first, p.1, iL.x_last, p.2) := by
        rw [get_same_bounds, if_pos htf]
        simp only [hiL, hp]
      have hck : check_crop_coords (i0 :: rest) iL.x_first iL.x_last p.1 p.2
          = .ok () := by
        have e1 : checkCropOne
            "x_first crop extent not within 1e-06 of grid coordinate"
            iL.x_first i0.x_first i0.x_step = .ok () :=
          checkCropOne_ok_of_int_step _ hxs0 0 (by rw [hxf]; push_cast; ring)
        have e2 : checkCropOne
            "x_last crop extent not within 1e-06 of grid coordinate"
            iL.x_last i0.x_last i0.x_step = .ok () :=
          checkCropOne_ok_of_int_step _ hxs0 (cL - c0)
            (by rw [hcL, hc0, hxf, hxs]; push_cast; ring)
        have e34 : checkCropOne
            "y_first crop extent not within 1e-06 of grid coordinate"
            p.2 i0.y_first i0.y_step = .ok () ∧
            checkCropOne
              "y_last crop extent not within 1e-06 of grid coordinate"
              p.1 i0.y_last i0.y_step = .ok () := by
          by_cases hsw : iL.y_first > iL.y_last
          · have hp1 : p.1 = iL.y_last := by rw [← hp, if_pos hsw]
            have hp2 : p.2 = iL.y_first := by rw [← hp, if_pos hsw]
            constructor
            · rw [hp2]
              exact checkCropOne_ok_of_int_step _ hys0 0
                (by rw [hyf]; push_cast; ring)
            · rw [hp1]
              exact checkCropOne_ok_of_int_step _ hys0 (rL - r0)
                (by rw [hy1, hr0]; push_cast; ring)
          · have hp1 : p.1 = iL.y_first := by rw [← hp, if_neg hsw]
            have hp2 : p.2 = iL.y_last := by rw [← hp, if_neg hsw]
            constructor
            · rw [hp2]
              exact checkCropOne_ok_of_int_step _ hys0 rL (by rw [hy1])
            · rw [hp1]
              exact checkCropOne_ok_of_int_step _ hys0 (-r0)
                (by rw [hyf, hr0]; push_cast; ring)
        obtain ⟨e3, e4⟩ := e34
        rw [check_crop_coords]
        rw [e1]
        show (do
            checkCropOne "x_last crop extent not within 1e-06 of grid coordinate"
              iL.x_last i0.x_last i0.x_step
            checkCropOne "y_first crop extent not within 1e-06 of grid coordinate"
              p.2 i0.y_first i0.y_step
            checkCropOne "y_last crop extent not within 1e-06 of grid coordinate"
              p.1 i0.y_last i0.y_step
            : Except String Unit) = .ok ()
        rw [e2]
        show (do
            checkCropOne "y_first crop extent not within 1e-06 of grid coordinate"
              p.2 i0.y_first i0.y_step
            checkCropOne "y_last crop extent not within 1e-06 of grid coordinate"
              p.1 i0.y_last i0.y_step
            : Except String Unit) = .ok ()
        rw [e3]
        show checkCropOne "y_last crop extent not within 1e-06 of grid coordinate"
          p.1 i0.y_last i0.y_step = .ok ()
        exact e4
      refine ⟨(iL.x_first, p.1, iL.x_last, p.2), ?_⟩
      rw [get_extents, if_neg h1, if_neg h2, if_neg h3]
      show (do
          let bounds ← get_same_bounds (i0 :: rest)
          check_crop_coords (i0 :: rest) bounds.1 bounds.2.2.1 bounds.2.1
            bounds.2.2.2
          pure bounds : Except String (ℚ × ℚ × ℚ × ℚ)) = _
      rw [hsame]
      show (do
          check_crop_coords (i0 :: rest) iL.x_first iL.x_last p.1 p.2
          pure (iL.x_first, p.1, iL.x_last, p.2)
          : Except String (ℚ × ℚ × ℚ × ℚ)) = _
      rw [hck]
      rfl
    · right; left
      rw [get_extents, if_neg h1, if_neg h2, if_neg h3]
      show (do
          let bounds ← get_same_bounds (i0 :: rest)
          check_crop_coords (i0 :: rest) bounds.1 bounds.2.2.1 bounds.2.1
            bounds.2.2.2
          pure bounds : Except String (ℚ × ℚ × ℚ × ℚ)) = _
      rw [get_same_bounds, if_neg htf]
      rfl

/-- C5, witness: a consistent two-raster batch under `ALREADY_SAME_SIZE`. -/
theorem C5_witness :
    (∃ b, get_extents [⟨0, 0, 3, -2, 1, -1⟩, ⟨0, 0, 4, -2, 1, -1⟩]
        ⟨ALREADY_SAME_SIZE, none, none, none, none⟩ = .ok b) ∨
    get_extents [⟨0, 0, 3, -2, 1, -1⟩, ⟨0, 0, 4, -2, 1, -1⟩]
        ⟨ALREADY_SAME_SIZE, none, none, none, none⟩ =
      .error "Ifgs do not have the same bounding box for crop option: 4" ∨
    get_extents [⟨0, 0, 3, -2, 1, -1⟩, ⟨0, 0, 4, -2, 1, -1⟩]
        ⟨ALREADY_SAME_SIZE, none, none, none, none⟩ =
      .error "NameError: name i is not defined" :=
  C5_amended [⟨0, 0, 3, -2, 1, -1⟩, ⟨0, 0, 4, -2, 1, -1⟩]
    ⟨ALREADY_SAME_SIZE, none, none, none, none⟩ rfl (by
      intro i hi
      rcases List.mem_cons.1 hi with rfl | hi
      · exact ⟨by norm_num, by norm_num, ⟨3, by norm_num⟩, ⟨2, by norm_num⟩⟩
      · rcases List.mem_cons.1 hi with rfl | hi
        · exact ⟨by norm_num, by norm_num, ⟨4, by norm_num⟩, ⟨2, by norm_num⟩⟩
        · exact absurd hi (List.not_mem_nil i))

/-! ## Claim C3 — coherence masking, inclusive at the threshold -/

/-- C3.  For equally-shaped source and coherence arrays and a threshold in
`[0,1]`, every pixel keeps its source value when its coherence is at least the
threshold (in particular when it equals the threshold exactly) and becomes
NaN when its coherence is strictly below it. -/
theorem C3_coherence_masking :
    ∀ (src : List (List Cell)) (coh : List (List ℚ)) (t : ℚ),
    0 ≤ t → t ≤ 1 → coh.length = src.length →
    ∀ y x, y < src.length → x < (src.getD y []).length →
    (coh.getD y []).length = (src.getD y []).length →
    (rawAt coh y x ≥ t →
      cellAt (coherence_masking src coh t) y x = cellAt src y x) ∧
    (rawAt coh y x < t →
      cellAt (coherence_masking src coh t) y x = none) ∧
    (rawAt coh y x = t →
      cellAt (coherence_masking src coh t) y x = cellAt src y x) := by
  intro src coh t _ht0 _ht1 hlen y x hy hx hrow
  have hcell : cellAt (coherence_masking src coh t) y x =
      (if (coh.getD y []).getD x 0 ≥ t then (src.getD y []).getD x none
       else none) := by
    rw [cellAt, coherence_masking,
      getD_zipWith _ src coh y hy (hlen ▸ hy) [] [] [],
      getD_zipWith _ (src.getD y []) (coh.getD y []) x hx (hrow ▸ hx) none none 0]
  rw [hcell]
  refine ⟨fun hge => ?_, fun hlt => ?_, fun heq => ?_⟩
  · unfold rawAt at hge
    rw [if_pos hge]; rfl
  · unfold rawAt at hlt
    rw [if_neg (not_le.mpr hlt)]
  · unfold rawAt at heq
    rw [if_pos (le_of_eq heq.symm)]; rfl

/-- C3, witness: the spec's boundary example with threshold `0.80` — coherence
`0.79` becomes NaN, coherence exactly `0.80` keeps its source value. -/
theorem C3_witness :
    cellAt (coherence_masking [[some 3, some 4]] [[79/100, 80/100]] (80/100))
      0 0 = none ∧
    cellAt (coherence_masking [[some 3, some 4]] [[79/100, 80/100]] (80/100))
      0 1 = some 4 := by
  constructor
  · exact (C3_coherence_masking [[some 3, some 4]] [[79/100, 80/100]] (80/100)
      (by norm_num) (by norm_num) rfl 0 0 (by norm_num) (by norm_num)
      rfl).2.1 (by norm_num [rawAt])
  · have h := (C3_coherence_masking [[some 3, some 4]] [[79/100, 80/100]]
      (80/100) (by norm_num) (by norm_num) rfl 0 1 (by norm_num) (by norm_num)
      rfl).2.2 (by norm_num [rawAt])
    simpa [cellAt] using h

/-! ## Claim C7 — intersection extent resolution -/

/-- C7.  For a nonempty batch, `min_bounds` returns exactly
`(max x_first, max y_last, min x_last, min y_first)` — each component is a
member of and a bound for the respective coordinate multiset — and the result
is invariant under any permutation of the raster order. -/
theorem C7_min_bounds :
    ∀ (ifgs ifgs2 : List IfgMeta), ifgs ≠ [] → ifgs.Perm ifgs2 →
    min_bounds ifgs = min_bounds ifgs2 ∧
    ((min_bounds ifgs).1 ∈ ifgs.map (·.x_first) ∧
      ∀ v ∈ ifgs.map (·.x_first), v ≤ (min_bounds ifgs).1) ∧
    ((min_bounds ifgs).2.1 ∈ ifgs.map (·.y_last) ∧
      ∀ v ∈ ifgs.map (·.y_last), v ≤ (min_bounds ifgs).2.1) ∧
    ((min_bounds ifgs).2.2.1 ∈ ifgs.map (·.x_last) ∧
      ∀ v ∈ ifgs.map (·.x_last), (min_bounds ifgs).2.2.1 ≤ v) ∧
    ((min_bounds ifgs).2.2.2 ∈ ifgs.map (·.y_first) ∧
      ∀ v ∈ ifgs.map (·.y_first), (min_bounds ifgs).2.2.2 ≤ v) := by
  intro ifgs ifgs2 hne hp
  have hmapne : ∀ f : IfgMeta → ℚ, ifgs.map f ≠ [] := by
    intro f h
    exact hne (List.map_eq_nil_iff.mp h)
  refine ⟨?_, ⟨pyMax_mem (hmapne _), fun v hv => le_pyMax hv⟩,
    ⟨pyMax_mem (hmapne _), fun v hv => le_pyMax hv⟩,
    ⟨pyMin_mem (hmapne _), fun v hv => pyMin_le hv⟩,
    ⟨pyMin_mem (hmapne _), fun v hv => pyMin_le hv⟩⟩
  rw [min_bounds, min_bounds]
  rw [pyMax_perm (hp.map (·.x_first)) (hmapne _),
    pyMax_perm (hp.map (·.y_last)) (hmapne _),
    pyMin_perm (hp.map (·.x_last)) (hmapne _),
    pyMin_perm (hp.map (·.y_first)) (hmapne _)]

/-- C7, witness: a two-raster batch and its swapped ordering resolve to the
same intersection extent. -/
theorem C7_witness :
    min_bounds [⟨0, 0, 3, -2, 1, -1⟩, ⟨1, 1, 4, -1, 1, -1⟩] =
      min_bounds [⟨1, 1, 4, -1, 1, -1⟩, ⟨0, 0, 3, -2, 1, -1⟩] ∧
    ((min_bounds [⟨0, 0, 3, -2, 1, -1⟩, ⟨1, 1, 4, -1, 1, -1⟩]).1 ∈
        ([⟨0, 0, 3, -2, 1, -1⟩, ⟨1, 1, 4, -1, 1, -1⟩] : List IfgMeta).map
          (·.x_first) ∧
      ∀ v ∈ ([⟨0, 0, 3, -2, 1, -1⟩, ⟨1, 1, 4, -1, 1, -1⟩] : List IfgMeta).map
          (·.x_first),
        v ≤ (min_bounds [⟨0, 0, 3, -2, 1, -1⟩, ⟨1, 1, 4, -1, 1, -1⟩]).1) :=
  ⟨(C7_min_bounds [⟨0, 0, 3, -2, 1, -1⟩, ⟨1, 1, 4, -1, 1, -1⟩]
      [⟨1, 1, 4, -1, 1, -1⟩, ⟨0, 0, 3, -2, 1, -1⟩]
      (by simp) (by decide)).1,
   (C7_min_bounds [⟨0, 0, 3, -2, 1, -1⟩, ⟨1, 1, 4, -1, 1, -1⟩]
      [⟨1, 1, 4, -1, 1, -1⟩, ⟨0, 0, 3, -2, 1, -1⟩]
      (by simp) (by decide)).2.1⟩

/-- C9, witness for the amended theorem at concrete looks `3 ≠ 1`. -/
theorem C9_witness :
    (prepare_ifg ⟨"a.tif", [[2, 4]], .orig, [], 1, -1⟩ 3 1 (1/4) 4
        none none []).1 = .error "X and Y looks mismatch" ∧
    (prepare_ifg ⟨"a.tif", [[2, 4]], .orig, [], 1, -1⟩ 3 1 (1/4) 4
        none none []).2 =
      [Event.openRaster "a.tif", Event.openRaster "a.tif"] ∧
    check_looks ((3 : ℕ) : ℚ) ((1 : ℕ) : ℚ) = .ok () :=
  C9_amended ⟨"a.tif", [[2, 4]], .orig, [], 1, -1⟩ 3 1 (1/4) 4 none none []
    (by decide) (by decide) (by decide)

end PyRate
